import Mathlib

/-!
# Verification of FastPython.py

A shallow embedding of `FastPython.py`, a command-line utility that rewrites a
Python source file.  The core is `add_decorator_to_functions`, which parses
source text into a syntax tree, walks function-definition nodes, conditionally
inserts a decorator reference, and regenerates source text.  The surrounding
glue (mode dispatch, argument parsing, the four string-prepend transformers)
is embedded directly as string functions.

The Python standard-library functions `ast.parse` and `ast.unparse` are not
part of the repository; the string-level transformer is therefore
parameterized by a `parse : String → Except String Module` and an
`unparse : Module → Except String String`, mirroring the fact that both
library calls can raise.  The tree walk itself (`DecoratorAdder`) is embedded
faithfully as `visitStmt` / `visitBody`.
-/

namespace FastPython

mutual

/-- A fragment of the Python expression AST: `ast.Name`, `ast.Call`, and
constant leaves.  Decorators are expressions; the transformer inspects only
whether a decorator is an `ast.Name` with a given id. -/
inductive Expr where
  | name (id : String)
  | call (func : Expr) (args : ExprList)
  | constInt (v : Int)
  | constStr (v : String)
deriving DecidableEq

/-- A list of expressions (call arguments, decorator lists). -/
inductive ExprList where
  | nil
  | cons (head : Expr) (tail : ExprList)
deriving DecidableEq

end

mutual

/-- A fragment of the Python statement AST.  `ast.FunctionDef`,
`ast.AsyncFunctionDef` and `ast.ClassDef` carry a `decorator_list`; compound
statements carry nested statement lists that `ast.NodeTransformer.generic_visit`
recurses into. -/
inductive Stmt where
  | functionDef (nm : String) (args : List String) (body : StmtList)
      (decorator_list : ExprList)
  | asyncFunctionDef (nm : String) (args : List String) (body : StmtList)
      (decorator_list : ExprList)
  | classDef (nm : String) (body : StmtList) (decorator_list : ExprList)
  | ifStmt (cond : Expr) (body : StmtList) (orelse : StmtList)
  | whileStmt (cond : Expr) (body : StmtList) (orelse : StmtList)
  | forStmt (target : Expr) (iter : Expr) (body : StmtList) (orelse : StmtList)
  | withStmt (item : Expr) (body : StmtList)
  | ret (value : Option Expr)
  | assign (target : Expr) (value : Expr)
  | exprStmt (value : Expr)
  | importFrom (module : String) (names : List String)
  | passStmt
deriving DecidableEq

/-- A list of statements (a suite / body). -/
inductive StmtList where
  | nil
  | cons (head : Stmt) (tail : StmtList)
deriving DecidableEq

end

/-- `ast.Module`: the top-level statement list. -/
structure Module where
  body : StmtList
deriving DecidableEq

/-- `any(...)` over an expression list. -/
def ExprList.any (p : Expr → Bool) : ExprList → Bool
  | .nil => false
  | .cons e rest => p e || ExprList.any p rest

/-- The decorator-presence test of `DecoratorAdder.visit_FunctionDef`:
`isinstance(dec, ast.Name) and dec.id == decorator_name`. -/
def isNameD (decorator_name : String) : Expr → Bool
  | .name id => id == decorator_name
  | _ => false

mutual

/-- The `DecoratorAdder` transformer of `add_decorator_to_functions`:
`visit_FunctionDef` checks for a bare-name decorator equal to
`decorator_name`, inserts `ast.Name(id=decorator_name)` at index 0 of
`decorator_list` when absent, then `generic_visit` recurses into children.
All other node kinds receive only the default `generic_visit`, which rewrites
nested statement lists and leaves everything else in place (expressions
contain no statement children, so they are returned unchanged). -/
def visitStmt (d : String) : Stmt → Stmt
  | .functionDef nm args body decs =>
      let decs' := if decs.any (isNameD d) then decs else .cons (.name d) decs
      .functionDef nm args (visitBody d body) decs'
  | .asyncFunctionDef nm args body decs =>
      .asyncFunctionDef nm args (visitBody d body) decs
  | .classDef nm body decs => .classDef nm (visitBody d body) decs
  | .ifStmt c body orelse => .ifStmt c (visitBody d body) (visitBody d orelse)
  | .whileStmt c body orelse => .whileStmt c (visitBody d body) (visitBody d orelse)
  | .forStmt t i body orelse => .forStmt t i (visitBody d body) (visitBody d orelse)
  | .withStmt item body => .withStmt item (visitBody d body)
  | .ret v => .ret v
  | .assign t v => .assign t v
  | .exprStmt v => .exprStmt v
  | .importFrom m ns => .importFrom m ns
  | .passStmt => .passStmt

/-- `generic_visit` over a statement list. -/
def visitBody (d : String) : StmtList → StmtList
  | .nil => .nil
  | .cons s rest => .cons (visitStmt d s) (visitBody d rest)

end

/-- `DecoratorAdder().visit(tree)` on a `Module` node: `generic_visit` of the
top-level body. -/
def visitModule (d : String) (m : Module) : Module :=
  ⟨visitBody d m.body⟩

/-- `add_decorator_to_functions(code, decorator_name)`: parse the code
(returning it unchanged on a parse error), run `DecoratorAdder`, and unparse
(returning the original code unchanged on an unparse error).
`ast.fix_missing_locations` only fills source positions, which the embedding
does not track. -/
def add_decorator_to_functions (parse : String → Except String Module)
    (unparse : Module → Except String String)
    (code : String) (decorator_name : String) : String :=
  match parse code with
  | .error _ => code
  | .ok tree =>
      let new_tree := visitModule decorator_name tree
      match unparse new_tree with
      | .error _ => code
      | .ok optimized_code => optimized_code

/-! ## String helpers: Python substring containment (`needle in haystack`) -/

/-- Does `needle` occur as a contiguous sublist of the haystack? -/
def subOccurs (needle : List Char) : List Char → Bool
  | [] => needle.isEmpty
  | c :: rest => needle.isPrefixOf (c :: rest) || subOccurs needle rest

/-- Python substring test `needle in hay`. -/
def strContains (hay needle : String) : Bool :=
  subOccurs needle.data hay.data

/-- Number of (possibly overlapping) start positions at which `needle`
occurs; with a nonempty needle this counts its occurrences. -/
def countSub (needle : List Char) : List Char → Nat
  | [] => 0
  | c :: rest => (if needle.isPrefixOf (c :: rest) then 1 else 0) + countSub needle rest

/-- Number of occurrences of `needle` in `hay`. -/
def countSubstr (hay needle : String) : Nat :=
  countSub needle.data hay.data

/-! ## The six optimization functions and the driver glue -/

/-- `ensure_import(code, import_line)`: if the given import line is not
already in the code (Python substring test), add it at the beginning. -/
def ensure_import (code : String) (import_line : String) : String :=
  if strContains code import_line then code
  else import_line ++ "\n" ++ code

/-- The sample `main()` and `__main__` block inserted by
`optimize_multiprocessing` when no `if __name__` text is present. -/
def sample_main : String :=
  "def main():\n    # Main function of the program\n    pass\n\nif __name__ == \x27__main__\x27:\n    import multiprocessing\n    p = multiprocessing.Process(target=main)\n    p.start()\n    p.join()\n\n"

/-- `optimize_multiprocessing(code)`. -/
def optimize_multiprocessing (code : String) : String :=
  let optimized := "# [OPTIMIZATION: Multiprocessing]\n" ++ code
  if strContains code "if __name__" then
    "# Note: Please ensure that the multiprocessing block in __main__ is correct.\n" ++ optimized
  else
    sample_main ++ optimized

/-- `optimize_translation(code)`. -/
def optimize_translation (code : String) : String :=
  let optimized := "# [OPTIMIZATION: Translated to a C/C++ version using pybind11]\n" ++ code
  optimized ++ "\n# Note: For an actual translation, you need to manually configure tools such as Cython or pybind11.\n"

/-- `optimize_numba(code)`: ensure the njit import, add the `njit`
decorator via the AST walk, prepend the banner. -/
def optimize_numba (parse : String → Except String Module)
    (unparse : Module → Except String String) (code : String) : String :=
  let code := ensure_import code "from numba import njit"
  let optimized := add_decorator_to_functions parse unparse code "njit"
  "# [OPTIMIZATION: Numba JIT applied]\n" ++ optimized

/-- `optimize_cython(code)`. -/
def optimize_cython (code : String) : String :=
  let optimized := "# [OPTIMIZATION: Prepared for Cython]\n# cython: language_level=3\n" ++ code
  optimized ++ "\n# Note: To compile with Cython, change the file extension to .pyx and apply further configurations.\n"

/-- `optimize_cache(code)`: ensure the lru_cache import, add the
`lru_cache` decorator via the AST walk, prepend the banner. -/
def optimize_cache (parse : String → Except String Module)
    (unparse : Module → Except String String) (code : String) : String :=
  let code := ensure_import code "from functools import lru_cache"
  let optimized := add_decorator_to_functions parse unparse code "lru_cache"
  "# [OPTIMIZATION: Caching with lru_cache applied]\n" ++ optimized

/-- `optimize_vectorize(code)`. -/
def optimize_vectorize (code : String) : String :=
  let optimized := "# [OPTIMIZATION: Vectorized operations with NumPy]\n"
  let optimized := ensure_import optimized "import numpy as np"
  let optimized := optimized ++ "\n" ++ code
  optimized ++ "\n# Note: It is recommended to convert loops into numpy operations for better performance.\n"

/-- CPython `str.rfind` for a single character: highest index, `-1` if absent. -/
def rfindChar (c : Char) : List Char → Int
  | [] => -1
  | x :: rest =>
      let r := rfindChar c rest
      if r ≥ 0 then r + 1
      else if x = c then 0 else -1

/-- `os.path.splitext` (posix): split off the extension at the last dot of
the final path component, unless that component consists only of leading
dots up to that position. -/
def splitext (p : String) : String × String :=
  let cs := p.data
  let sepIndex := rfindChar '/' cs
  let dotIndex := rfindChar '.' cs
  if sepIndex < dotIndex then
    let leadPart := (cs.take dotIndex.toNat).drop (sepIndex + 1).toNat
    if leadPart.any (fun ch => ch ≠ '.') then
      (String.mk (cs.take dotIndex.toNat), String.mk (cs.drop dotIndex.toNat))
    else (p, "")
  else (p, "")

/-- Outcome of `main` after the input file has been read: the exit code, the
output file written (name and content), and the error message printed, if
any. -/
structure RunResult where
  exitCode : Nat
  written : Option (String × String)
  errMsg : Option String
deriving DecidableEq

/-- The mode-dispatch chain of `main` (the `if method_choice == "1" ... else`
ladder): `some` transformed text for the six recognized modes, `none`
otherwise. -/
def applyMethod (parse : String → Except String Module)
    (unparse : Module → Except String String)
    (method_choice code : String) : Option String :=
  if method_choice = "1" then some (optimize_multiprocessing code)
  else if method_choice = "2" then some (optimize_translation code)
  else if method_choice = "3" then some (optimize_numba parse unparse code)
  else if method_choice = "4" then some (optimize_cython code)
  else if method_choice = "5" then some (optimize_cache parse unparse code)
  else if method_choice = "6" then some (optimize_vectorize code)
  else none

/-- `main` from the dispatch onward (the file has been read into `code`):
an unrecognized mode prints `Invalid selection!` and exits with status 1
before any output file is created; otherwise the transformed text is written
to `<base>_FAST<ext>`. -/
def mainAfterRead (parse : String → Except String Module)
    (unparse : Module → Except String String)
    (method_choice code filename : String) : RunResult :=
  match applyMethod parse unparse method_choice code with
  | none => ⟨1, none, some "Invalid selection!"⟩
  | some optimized_code =>
      let be := splitext filename
      ⟨0, some (be.1 ++ "_FAST" ++ be.2, optimized_code), none⟩

/-- The command-line parse of `main` (lines 204-217): `filename = args[0]`
is taken from the raw argument list, then `--run` (first occurrence) is
removed, then the mode is `args[1]` of the remaining list when present
(`none` means the interactive menu is shown).  `none` overall means the
fully interactive path (no arguments at all). -/
structure CliParse where
  filename : String
  run_flag : Bool
  method_choice : Option String
deriving DecidableEq

/-- `main`'s argument handling: filename from the raw first argument,
`--run` stripped afterwards, mode from index 1 of the stripped list. -/
def parseCli : List String → Option CliParse
  | [] => none
  | a0 :: rest =>
      let args := a0 :: rest
      let run_flag := args.contains "--run"
      let args := if run_flag then args.erase "--run" else args
      some ⟨a0, run_flag, args[1]?⟩

/-! ## Specification-side definitions

These express the properties claimed of the transformer; they are written
from the claims, to be compared with the behaviour of the embedded code. -/

/-- Decorator list of a definition node (`none` for statements that carry
no `decorator_list`). -/
def getDecorators : Stmt → Option ExprList
  | .functionDef _ _ _ decs => some decs
  | .asyncFunctionDef _ _ _ decs => some decs
  | .classDef _ _ decs => some decs
  | _ => none

/-- Body of a function-definition node. -/
def getFunBody : Stmt → Option StmtList
  | .functionDef _ _ body _ => some body
  | _ => none

/-- The claimed relation between the decorator lists of a function
definition before (`decs`) and after (`decs2`) the walk: unchanged when a
bare decorator named `d` was already present, otherwise the new bare
decorator sits at the head (index 0, the outermost position). -/
def decCheck (d : String) (decs decs2 : ExprList) : Bool :=
  if decs.any (isNameD d) then decide (decs2 = decs)
  else decide (decs2 = .cons (.name d) decs)

mutual

/-- Structural comparison of a statement before and after the walk:
function definitions relate by `decCheck` on their decorator lists and
recursively on their bodies; async function and class definitions keep
their decorator lists; all other statements are unchanged apart from their
nested bodies. -/
def stmtAdded (d : String) : Stmt → Stmt → Bool
  | .functionDef nm args body decs, .functionDef nm2 args2 body2 decs2 =>
      decide (nm = nm2) && decide (args = args2) && bodyAdded d body body2 &&
        decCheck d decs decs2
  | .asyncFunctionDef nm args body decs, .asyncFunctionDef nm2 args2 body2 decs2 =>
      decide (nm = nm2) && decide (args = args2) && bodyAdded d body body2 &&
        decide (decs2 = decs)
  | .classDef nm body decs, .classDef nm2 body2 decs2 =>
      decide (nm = nm2) && bodyAdded d body body2 && decide (decs2 = decs)
  | .ifStmt c body orelse, .ifStmt c2 body2 orelse2 =>
      decide (c = c2) && bodyAdded d body body2 && bodyAdded d orelse orelse2
  | .whileStmt c body orelse, .whileStmt c2 body2 orelse2 =>
      decide (c = c2) && bodyAdded d body body2 && bodyAdded d orelse orelse2
  | .forStmt t i body orelse, .forStmt t2 i2 body2 orelse2 =>
      decide (t = t2) && decide (i = i2) && bodyAdded d body body2 &&
        bodyAdded d orelse orelse2
  | .withStmt item body, .withStmt item2 body2 =>
      decide (item = item2) && bodyAdded d body body2
  | s, s2 => decide (s = s2)

/-- `stmtAdded` pointwise over two statement lists of equal length. -/
def bodyAdded (d : String) : StmtList → StmtList → Bool
  | .nil, .nil => true
  | .cons s rest, .cons s2 rest2 => stmtAdded d s s2 && bodyAdded d rest rest2
  | _, _ => false

end

mutual

/-- Erase every `decorator_list` in a statement, at any nesting depth,
leaving all other fields intact. -/
def eraseDecs : Stmt → Stmt
  | .functionDef nm args body _ => .functionDef nm args (eraseDecsBody body) .nil
  | .asyncFunctionDef nm args body _ =>
      .asyncFunctionDef nm args (eraseDecsBody body) .nil
  | .classDef nm body _ => .classDef nm (eraseDecsBody body) .nil
  | .ifStmt c body orelse => .ifStmt c (eraseDecsBody body) (eraseDecsBody orelse)
  | .whileStmt c body orelse =>
      .whileStmt c (eraseDecsBody body) (eraseDecsBody orelse)
  | .forStmt t i body orelse =>
      .forStmt t i (eraseDecsBody body) (eraseDecsBody orelse)
  | .withStmt item body => .withStmt item (eraseDecsBody body)
  | .ret v => .ret v
  | .assign t v => .assign t v
  | .exprStmt v => .exprStmt v
  | .importFrom m ns => .importFrom m ns
  | .passStmt => .passStmt

/-- `eraseDecs` over a statement list. -/
def eraseDecsBody : StmtList → StmtList
  | .nil => .nil
  | .cons s rest => .cons (eraseDecs s) (eraseDecsBody rest)

end

/-- `eraseDecs` over a module. -/
def eraseDecsModule (m : Module) : Module :=
  ⟨eraseDecsBody m.body⟩

mutual

/-- The decorator lists of all `async def` nodes in a statement, at any
nesting depth, in source order. -/
def asyncDecs : Stmt → List ExprList
  | .functionDef _ _ body _ => asyncDecsBody body
  | .asyncFunctionDef _ _ body decs => decs :: asyncDecsBody body
  | .classDef _ body _ => asyncDecsBody body
  | .ifStmt _ body orelse => asyncDecsBody body ++ asyncDecsBody orelse
  | .whileStmt _ body orelse => asyncDecsBody body ++ asyncDecsBody orelse
  | .forStmt _ _ body orelse => asyncDecsBody body ++ asyncDecsBody orelse
  | .withStmt _ body => asyncDecsBody body
  | _ => []

/-- `asyncDecs` over a statement list. -/
def asyncDecsBody : StmtList → List ExprList
  | .nil => []
  | .cons s rest => asyncDecs s ++ asyncDecsBody rest

end

/-- `asyncDecs` over a module. -/
def asyncDecsModule (m : Module) : List ExprList :=
  asyncDecsBody m.body

/-! ## Concrete material used by witnesses and counterexamples -/

/-- Last element of an expression list («the innermost decorator, the one
immediately above the def line», in claim C1's wording). -/
def ExprList.lastE : ExprList → Option Expr
  | .nil => none
  | .cons e .nil => some e
  | .cons _ (.cons e rest) => ExprList.lastE (.cons e rest)

/-- Membership in an expression list. -/
def ExprList.memE (e : Expr) : ExprList → Bool
  | .nil => false
  | .cons x rest => decide (x = e) || ExprList.memE e rest

/-- `def f():` followed by `pass`, no decorators. -/
def mW0 : Module :=
  ⟨.cons (.functionDef "f" [] (.cons .passStmt .nil) .nil) .nil⟩

/-- `@njit` above `def f():` with body `pass`. -/
def mW1 : Module :=
  ⟨.cons (.functionDef "f" [] (.cons .passStmt .nil)
    (.cons (.name "njit") .nil)) .nil⟩

/-- Source text of `mW0`. -/
def wSrc0 : String := "def f():\n    pass"

/-- Source text of `mW1`. -/
def wSrc1 : String := "@njit\ndef f():\n    pass"

/-- Modelled from the spec: CPython `ast.parse` — a Python built-in, not
part of this repository — restricted to the two concrete sources used as
test inputs; every other string is treated as raising. -/
def wParse (s : String) : Except String Module :=
  if s = wSrc0 then .ok mW0
  else if s = wSrc1 then .ok mW1
  else .error "invalid syntax"

/-- Modelled from the spec: CPython `ast.unparse` — a Python built-in, not
part of this repository — restricted to the two concrete modules above. -/
def wUnparse (m : Module) : Except String String :=
  if m = mW0 then .ok wSrc0
  else if m = mW1 then .ok wSrc1
  else .error "unsupported node"

/-- A parser that always raises (models `ast.parse` on malformed text). -/
def failParse : String → Except String Module :=
  fun _ => .error "invalid syntax"

/-- An unparser that always raises (models `ast.unparse` failing). -/
def failUnparse : Module → Except String String :=
  fun _ => .error "unsupported node"

/-- The end-to-end scenario-1 input text. -/
def src9 : String := "def f():\n    return 1\n"

/-- `src9` after `ensure_import` has prepended the functools import. -/
def src9i : String := "from functools import lru_cache\ndef f():\n    return 1\n"

/-- Syntax tree of `src9i`. -/
def m9 : Module :=
  ⟨.cons (.importFrom "functools" ["lru_cache"])
    (.cons (.functionDef "f" [] (.cons (.ret (some (.constInt 1))) .nil) .nil)
      .nil)⟩

/-- `m9` with the `lru_cache` decorator inserted on `f`. -/
def m9dec : Module :=
  ⟨.cons (.importFrom "functools" ["lru_cache"])
    (.cons (.functionDef "f" [] (.cons (.ret (some (.constInt 1))) .nil)
      (.cons (.name "lru_cache") .nil)) .nil)⟩

/-- Unparsed text of `m9dec`. -/
def out9 : String :=
  "from functools import lru_cache\n\n@lru_cache\ndef f():\n    return 1"

/-- Modelled from the spec: CPython `ast.parse` on the scenario-1 text. -/
def pyParse9 (s : String) : Except String Module :=
  if s = src9i then .ok m9 else .error "invalid syntax"

/-- Modelled from the spec: CPython `ast.unparse` on the scenario-1 tree. -/
def pyUnparse9 (m : Module) : Except String String :=
  if m = m9dec then .ok out9 else .error "unsupported node"

/-- A function definition that already carries a decorator `@other`. -/
def c1ex : Stmt :=
  .functionDef "f" [] (.cons .passStmt .nil) (.cons (.name "other") .nil)

/-- A function `f` whose body contains a nested function definition `g`. -/
def c6ex : Stmt :=
  .functionDef "f" []
    (.cons (.functionDef "g" [] (.cons .passStmt .nil) .nil) .nil) .nil

/-! ## Core lemmas about the tree walk -/

/-- After an insertion, the inserted bare decorator is detected. -/
theorem any_isNameD_cons_self (d : String) (decs : ExprList) :
    (ExprList.cons (Expr.name d) decs).any (isNameD d) = true := by
  simp [ExprList.any, isNameD]

mutual

/-- The tree walk is idempotent on statements. -/
theorem visitStmt_idem (d : String) :
    (s : Stmt) → visitStmt d (visitStmt d s) = visitStmt d s
  | .functionDef nm args body decs => by
      have ih := visitBody_idem d body
      by_cases h : decs.any (isNameD d) = true
      · simp [visitStmt, h, ih]
      · simp only [visitStmt, h, if_false, Bool.false_eq_true, if_neg,
          any_isNameD_cons_self, if_true, ih]
  | .asyncFunctionDef nm args body decs => by
      simp [visitStmt, visitBody_idem d body]
  | .classDef nm body decs => by
      simp [visitStmt, visitBody_idem d body]
  | .ifStmt c body orelse => by
      simp [visitStmt, visitBody_idem d body, visitBody_idem d orelse]
  | .whileStmt c body orelse => by
      simp [visitStmt, visitBody_idem d body, visitBody_idem d orelse]
  | .forStmt t i body orelse => by
      simp [visitStmt, visitBody_idem d body, visitBody_idem d orelse]
  | .withStmt item body => by
      simp [visitStmt, visitBody_idem d body]
  | .ret v => rfl
  | .assign t v => rfl
  | .exprStmt v => rfl
  | .importFrom m ns => rfl
  | .passStmt => rfl

/-- The tree walk is idempotent on statement lists. -/
theorem visitBody_idem (d : String) :
    (l : StmtList) → visitBody d (visitBody d l) = visitBody d l
  | .nil => rfl
  | .cons s rest => by
      simp [visitBody, visitStmt_idem d s, visitBody_idem d rest]

end

/-- The tree walk is idempotent on modules. -/
theorem visitModule_idem (d : String) (m : Module) :
    visitModule d (visitModule d m) = visitModule d m := by
  simp [visitModule, visitBody_idem]

mutual

/-- Each statement relates to its transform by `stmtAdded`. -/
theorem stmtAdded_visit (d : String) :
    (s : Stmt) → stmtAdded d s (visitStmt d s) = true
  | .functionDef nm args body decs => by
      have ih := bodyAdded_visit d body
      by_cases h : decs.any (isNameD d) = true
      · simp [visitStmt, stmtAdded, decCheck, h, ih]
      · simp [visitStmt, stmtAdded, decCheck, h, ih]
  | .asyncFunctionDef nm args body decs => by
      simp [visitStmt, stmtAdded, bodyAdded_visit d body]
  | .classDef nm body decs => by
      simp [visitStmt, stmtAdded, bodyAdded_visit d body]
  | .ifStmt c body orelse => by
      simp [visitStmt, stmtAdded, bodyAdded_visit d body, bodyAdded_visit d orelse]
  | .whileStmt c body orelse => by
      simp [visitStmt, stmtAdded, bodyAdded_visit d body, bodyAdded_visit d orelse]
  | .forStmt t i body orelse => by
      simp [visitStmt, stmtAdded, bodyAdded_visit d body, bodyAdded_visit d orelse]
  | .withStmt item body => by
      simp [visitStmt, stmtAdded, bodyAdded_visit d body]
  | .ret v => by simp [visitStmt, stmtAdded]
  | .assign t v => by simp [visitStmt, stmtAdded]
  | .exprStmt v => by simp [visitStmt, stmtAdded]
  | .importFrom m ns => by simp [visitStmt, stmtAdded]
  | .passStmt => by simp [visitStmt, stmtAdded]

/-- Each statement list relates to its transform by `bodyAdded`. -/
theorem bodyAdded_visit (d : String) :
    (l : StmtList) → bodyAdded d l (visitBody d l) = true
  | .nil => rfl
  | .cons s rest => by
      simp [visitBody, bodyAdded, stmtAdded_visit d s, bodyAdded_visit d rest]

end

mutual

/-- Erasing decorator lists cancels the tree walk on statements. -/
theorem eraseDecs_visit (d : String) :
    (s : Stmt) → eraseDecs (visitStmt d s) = eraseDecs s
  | .functionDef nm args body decs => by
      simp [visitStmt, eraseDecs, eraseDecsBody_visit d body]
  | .asyncFunctionDef nm args body decs => by
      simp [visitStmt, eraseDecs, eraseDecsBody_visit d body]
  | .classDef nm body decs => by
      simp [visitStmt, eraseDecs, eraseDecsBody_visit d body]
  | .ifStmt c body orelse => by
      simp [visitStmt, eraseDecs, eraseDecsBody_visit d body,
        eraseDecsBody_visit d orelse]
  | .whileStmt c body orelse => by
      simp [visitStmt, eraseDecs, eraseDecsBody_visit d body,
        eraseDecsBody_visit d orelse]
  | .forStmt t i body orelse => by
      simp [visitStmt, eraseDecs, eraseDecsBody_visit d body,
        eraseDecsBody_visit d orelse]
  | .withStmt item body => by
      simp [visitStmt, eraseDecs, eraseDecsBody_visit d body]
  | .ret v => rfl
  | .assign t v => rfl
  | .exprStmt v => rfl
  | .importFrom m ns => rfl
  | .passStmt => rfl

/-- Erasing decorator lists cancels the tree walk on statement lists. -/
theorem eraseDecsBody_visit (d : String) :
    (l : StmtList) → eraseDecsBody (visitBody d l) = eraseDecsBody l
  | .nil => rfl
  | .cons s rest => by
      simp [visitBody, eraseDecsBody, eraseDecs_visit d s, eraseDecsBody_visit d rest]

end

mutual

/-- The tree walk leaves every async decorator list unchanged. -/
theorem asyncDecs_visit (d : String) :
    (s : Stmt) → asyncDecs (visitStmt d s) = asyncDecs s
  | .functionDef nm args body decs => by
      simp [visitStmt, asyncDecs, asyncDecsBody_visit d body]
  | .asyncFunctionDef nm args body decs => by
      simp [visitStmt, asyncDecs, asyncDecsBody_visit d body]
  | .classDef nm body decs => by
      simp [visitStmt, asyncDecs, asyncDecsBody_visit d body]
  | .ifStmt c body orelse => by
      simp [visitStmt, asyncDecs, asyncDecsBody_visit d body,
        asyncDecsBody_visit d orelse]
  | .whileStmt c body orelse => by
      simp [visitStmt, asyncDecs, asyncDecsBody_visit d body,
        asyncDecsBody_visit d orelse]
  | .forStmt t i body orelse => by
      simp [visitStmt, asyncDecs, asyncDecsBody_visit d body,
        asyncDecsBody_visit d orelse]
  | .withStmt item body => by
      simp [visitStmt, asyncDecs, asyncDecsBody_visit d body]
  | .ret v => rfl
  | .assign t v => rfl
  | .exprStmt v => rfl
  | .importFrom m ns => rfl
  | .passStmt => rfl

/-- The tree walk leaves async decorator lists unchanged, over lists. -/
theorem asyncDecsBody_visit (d : String) :
    (l : StmtList) → asyncDecsBody (visitBody d l) = asyncDecsBody l
  | .nil => rfl
  | .cons s rest => by
      simp [visitBody, asyncDecsBody, asyncDecs_visit d s, asyncDecsBody_visit d rest]

end

/-- `wParse` and `wUnparse` form a parse/unparse round trip. -/
theorem wRoundtrip (m : Module) (s : String) (h : wUnparse m = .ok s) :
    wParse s = .ok m := by
  unfold wUnparse at h
  by_cases h0 : m = mW0
  · subst h0
    rw [if_pos rfl] at h
    injection h with h2
    subst h2
    simp [wParse]
  · rw [if_neg h0] at h
    by_cases h1 : m = mW1
    · subst h1
      rw [if_pos rfl] at h
      injection h with h2
      subst h2
      simp [wParse, wSrc0, wSrc1]
    · rw [if_neg h1] at h
      exact absurd h (by simp)

/-! ## The claims -/

/-- C1 (counterexample): on `@other def f(): pass` the transformer inserts
`njit` at index 0 of the decorator list, so the new decorator is the FIRST
entry (the outermost decorator), not, as claimed, the last one immediately
above the def line: the last entry is still `other`. -/
theorem C1_counterexample :
    getDecorators (visitStmt "njit" c1ex) =
      some (.cons (.name "njit") (.cons (.name "other") .nil)) ∧
    (ExprList.cons (Expr.name "njit") (.cons (.name "other") .nil)).lastE ≠
      some (.name "njit") := by
  constructor
  · rfl
  · decide

/-- C1 (amended): every function definition at any nesting level that does
not already carry a bare decorator with the given name gains it at index 0
of its decorator list — the first, outermost position, the one farthest
from the def line — and nothing else in the tree changes. -/
theorem C1_outermost_insertion (d : String) (m : Module) :
    bodyAdded d m.body (visitModule d m).body = true := by
  simpa [visitModule] using bodyAdded_visit d m.body

/-- C2: applying the decorator transformer twice yields the same text as
applying it once, for any parse/unparse pair that round-trips (reparsing
regenerated text yields the tree it was regenerated from). -/
theorem C2_idempotent (parse : String → Except String Module)
    (unparse : Module → Except String String) (code d : String)
    (hrt : ∀ m s, unparse m = .ok s → parse s = .ok m) :
    add_decorator_to_functions parse unparse
        (add_decorator_to_functions parse unparse code d) d =
      add_decorator_to_functions parse unparse code d := by
  cases hp : parse code with
  | error e =>
      have h1 : add_decorator_to_functions parse unparse code d = code := by
        unfold add_decorator_to_functions
        rw [hp]
      rw [h1]
      exact h1
  | ok t =>
      cases hu : unparse (visitModule d t) with
      | error e =>
          have h1 : add_decorator_to_functions parse unparse code d = code := by
            unfold add_decorator_to_functions
            rw [hp]
            simp [hu]
          rw [h1]
          exact h1
      | ok s =>
          have h1 : add_decorator_to_functions parse unparse code d = s := by
            unfold add_decorator_to_functions
            rw [hp]
            simp [hu]
          have hp2 : parse s = .ok (visitModule d t) := hrt _ _ hu
          have h2 : add_decorator_to_functions parse unparse s d = s := by
            unfold add_decorator_to_functions
            rw [hp2]
            simp [visitModule_idem, hu]
          rw [h1, h2]

/-- C2 (witness): on `def f(): pass` with decorator `njit`, under the
concrete round-tripping parse/unparse pair, a second application changes
nothing. -/
theorem C2_idempotent_witness :
    add_decorator_to_functions wParse wUnparse
        (add_decorator_to_functions wParse wUnparse wSrc0 "njit") "njit" =
      add_decorator_to_functions wParse wUnparse wSrc0 "njit" :=
  C2_idempotent wParse wUnparse wSrc0 "njit" wRoundtrip

/-- C3: when parsing fails, the transformer returns its input unchanged
(the embedded transformer is a total function: the failure is caught, never
propagated). -/
theorem C3_parse_failure (parse : String → Except String Module)
    (unparse : Module → Except String String) (code d e : String)
    (h : parse code = .error e) :
    add_decorator_to_functions parse unparse code d = code := by
  unfold add_decorator_to_functions
  rw [h]

/-- C3 (witness): a parser that raises on the malformed text `def f(:`
leaves the text unchanged. -/
theorem C3_parse_failure_witness :
    add_decorator_to_functions failParse wUnparse "def f(:" "njit" =
      "def f(:" :=
  C3_parse_failure failParse wUnparse "def f(:" "njit" "invalid syntax" rfl

/-- C4: a function whose decorators include a call expression
`d(...)` but no bare name `d` is treated as undecorated: a bare `d` is
inserted in addition, at the head of the decorator list. -/
theorem C4_call_not_recognized (d nm : String) (args : List String)
    (body : StmtList) (decs : ExprList) (cargs : ExprList)
    (h1 : decs.any (isNameD d) = false)
    (h2 : decs.memE (.call (.name d) cargs) = true) :
    getDecorators (visitStmt d (.functionDef nm args body decs)) =
      some (.cons (.name d) decs) := by
  simp [visitStmt, h1, getDecorators]

/-- C4 (witness): `@lru_cache()` written as a call gets an additional bare
`@lru_cache` inserted above it. -/
theorem C4_call_not_recognized_witness :
    getDecorators (visitStmt "lru_cache"
        (.functionDef "f" [] (.cons .passStmt .nil)
          (.cons (.call (.name "lru_cache") .nil) .nil))) =
      some (.cons (.name "lru_cache")
        (.cons (.call (.name "lru_cache") .nil) .nil)) :=
  C4_call_not_recognized "lru_cache" "f" [] (.cons .passStmt .nil)
    (.cons (.call (.name "lru_cache") .nil) .nil) .nil
    (by decide) (by decide)

/-- C5 (counterexample): with `--run` as the first argument, the filename
is `--run` itself — `filename = args[0]` is read before `--run` is removed
— not the first remaining argument `a.py` as the claim requires. -/
theorem C5_counterexample :
    parseCli ["--run", "a.py", "3"] = some ⟨"--run", true, some "3"⟩ ∧
    parseCli ["--run", "a.py", "3"] ≠ some ⟨"a.py", true, some "3"⟩ := by
  decide

/-- C5 (amended): `--run` anywhere in the list is detected and stripped
before the mode positional is read, so the mode comes from the remaining
arguments; the filename, however, is always the raw first argument, taken
before stripping, so a leading `--run` is itself taken as the filename. -/
theorem C5_run_stripping (f m : String) (hf : f ≠ "--run") (hm : m ≠ "--run") :
    parseCli [f, "--run", m] = some ⟨f, true, some m⟩ ∧
    parseCli [f, m, "--run"] = some ⟨f, true, some m⟩ ∧
    parseCli ["--run", f, m] = some ⟨"--run", true, some m⟩ := by
  have hf' : (f == "--run") = false := beq_eq_false_iff_ne.mpr hf
  have hm' : (m == "--run") = false := beq_eq_false_iff_ne.mpr hm
  refine ⟨?_, ?_, ?_⟩ <;>
    simp [parseCli, List.contains, List.erase, hf', hm', hf, hm]

/-- C5 (witness): the amended statement at `a.py` and mode `3`. -/
theorem C5_run_stripping_witness :
    parseCli ["a.py", "--run", "3"] = some ⟨"a.py", true, some "3"⟩ ∧
    parseCli ["a.py", "3", "--run"] = some ⟨"a.py", true, some "3"⟩ ∧
    parseCli ["--run", "a.py", "3"] = some ⟨"--run", true, some "3"⟩ :=
  C5_run_stripping "a.py" "3" (by decide) (by decide)

/-- C6 (counterexample): the body of `f` is NOT identical after the walk
when it contains a nested definition `g`: the nested `g` gains the
decorator, so `f`'s transformed body differs from its original body. -/
theorem C6_counterexample :
    getFunBody (visitStmt "njit" c6ex) ≠ getFunBody c6ex := by
  decide

/-- C6 (amended): after erasing every decorator list the transformed tree
equals the original — each function definition keeps its name, arguments
and body except that nested definitions may gain decorators — and the four
string modes keep the entire input text contiguous and unchanged, altering
only leading/trailing text. -/
theorem C6_body_preservation (d : String) (m : Module) (code : String) :
    eraseDecsModule (visitModule d m) = eraseDecsModule m ∧
    (∃ pre, optimize_multiprocessing code =
        pre ++ "# [OPTIMIZATION: Multiprocessing]\n" ++ code) ∧
    optimize_translation code =
      "# [OPTIMIZATION: Translated to a C/C++ version using pybind11]\n" ++ code ++
        "\n# Note: For an actual translation, you need to manually configure tools such as Cython or pybind11.\n" ∧
    optimize_cython code =
      "# [OPTIMIZATION: Prepared for Cython]\n# cython: language_level=3\n" ++ code ++
        "\n# Note: To compile with Cython, change the file extension to .pyx and apply further configurations.\n" ∧
    optimize_vectorize code =
      "import numpy as np\n# [OPTIMIZATION: Vectorized operations with NumPy]\n" ++ "\n" ++ code ++
        "\n# Note: It is recommended to convert loops into numpy operations for better performance.\n" := by
  refine ⟨?_, ?_, rfl, rfl, rfl⟩
  · simp [eraseDecsModule, visitModule, eraseDecsBody_visit]
  · by_cases h : strContains code "if __name__" = true
    · exact ⟨"# Note: Please ensure that the multiprocessing block in __main__ is correct.\n",
        by unfold optimize_multiprocessing; rw [if_pos h, String.append_assoc]⟩
    · exact ⟨sample_main,
        by unfold optimize_multiprocessing; rw [if_neg h, String.append_assoc]⟩

/-- C7: any mode identifier outside 1..6 falls through the dispatch
ladder: the run prints `Invalid selection!`, exits with status 1, and no
output file is written. -/
theorem C7_invalid_mode (parse : String → Except String Module)
    (unparse : Module → Except String String)
    (method_choice code filename : String)
    (h : method_choice ∉ (["1", "2", "3", "4", "5", "6"] : List String)) :
    mainAfterRead parse unparse method_choice code filename =
      ⟨1, none, some "Invalid selection!"⟩ := by
  simp only [List.mem_cons, List.not_mem_nil, or_false, not_or] at h
  obtain ⟨h1, h2, h3, h4, h5, h6⟩ := h
  simp [mainAfterRead, applyMethod, h1, h2, h3, h4, h5, h6]

/-- C7 (witness): mode `7` yields the error outcome with nothing written. -/
theorem C7_invalid_mode_witness :
    mainAfterRead wParse wUnparse "7" "x = 1\n" "script.py" =
      ⟨1, none, some "Invalid selection!"⟩ :=
  C7_invalid_mode wParse wUnparse "7" "x = 1\n" "script.py" (by decide)

/-- C8: when regeneration (unparse) fails after the tree was mutated, the
transformer returns the original unmodified input text. -/
theorem C8_unparse_failure (parse : String → Except String Module)
    (unparse : Module → Except String String) (code d e : String) (t : Module)
    (hp : parse code = .ok t) (hu : unparse (visitModule d t) = .error e) :
    add_decorator_to_functions parse unparse code d = code := by
  unfold add_decorator_to_functions
  rw [hp]
  simp [hu]

/-- C8 (witness): with an unparser that always raises, the original text
comes back untouched. -/
theorem C8_unparse_failure_witness :
    add_decorator_to_functions wParse failUnparse wSrc0 "njit" = wSrc0 :=
  C8_unparse_failure wParse failUnparse wSrc0 "njit" "unsupported node" mW0
    (by simp [wParse]) rfl

/-- C9: scenario 1 — input `def f():\n    return 1\n` under mode 5: the
functools import is ensured first, the tree walk decorates `f` with
`lru_cache`, the banner is prepended, and the result is written to
`script_FAST.py`; the output contains the import line exactly once and the
decorator immediately above `def f():`. -/
theorem C9_cache_scenario :
    mainAfterRead pyParse9 pyUnparse9 "5" src9 "script.py" =
      ⟨0, some ("script_FAST.py",
        "# [OPTIMIZATION: Caching with lru_cache applied]\nfrom functools import lru_cache\n\n@lru_cache\ndef f():\n    return 1"),
        none⟩ ∧
    countSubstr (optimize_cache pyParse9 pyUnparse9 src9)
      "from functools import lru_cache" = 1 ∧
    strContains (optimize_cache pyParse9 pyUnparse9 src9)
      "@lru_cache\ndef f():" = true ∧
    visitModule "lru_cache" m9 = m9dec := by
  refine ⟨?_, by decide, by decide, by decide⟩
  decide

/-- C10: async function definitions are never decorated: the transformer
defines only `visit_FunctionDef`, so `AsyncFunctionDef` nodes receive only
`generic_visit` and keep exactly their original decorator lists, at every
nesting level and for every decorator name (in particular `njit` and
`lru_cache`, modes 3 and 5). -/
theorem C10_async_untouched (d : String) (m : Module) :
    asyncDecsModule (visitModule d m) = asyncDecsModule m := by
  simp [asyncDecsModule, visitModule, asyncDecsBody_visit]

end FastPython
